import Mathlib

/-!
Verification of the Silentia cost/environmental-impact calculator
(src/calculator.js).

The core of the program is a pair of pure calculation functions
(calculateROI and calculateResources), a duration formatter inside
displayResults, and the proportional bar-width derivation used by the
charts.  We embed those functions shallowly:

* JS numbers are modelled as exact rationals (all the constants of the
  program are decimal literals, and the arithmetic is plain field
  arithmetic, so the rational model is the ideal semantics the code
  approximates).
* state.quantity is an integer (it is produced by parseInt, possibly 0
  or negative).
* Math.round and Number.toFixed round to nearest with ties going up,
  which on non-negative exact inputs is the behaviour specified for JS:
  Math.round x = floor (x + 1/2), and toFixed(n) picks the closest
  n-decimal value, larger on ties.  Mathlib's round is exactly
  floor (x + 1/2).
* calculateROI reads the global COSTS object; we pass the cost table as
  an explicit argument (the constant COSTS below is the table baked into
  the source) so that the branch behaviour of the function can be stated
  for arbitrary tables as well as for the shipped one.
* Objects returned with a subset of fields (the early returns of
  calculateROI omit savings and initialDiff) are modelled with Option
  fields, none meaning the field is absent.
-/

/-- Curtain material selector, state.curtainType in the source
('textile' or 'disposable'). -/
inductive CurtainType where
  | textile
  | disposable
deriving DecidableEq, Repr

/-- Cleaning frequency selector, state.cleaningFrequency in the source. -/
inductive Frequency where
  | yearly
  | quarterly
  | monthly
  | weekly
  | daily
deriving DecidableEq, Repr

/-- FREQUENCY_MULTIPLIER from src/calculator.js lines 49-55 (times per
year). -/
def FREQUENCY_MULTIPLIER : Frequency → ℚ
  | .yearly => 1
  | .quarterly => 4
  | .monthly => 12
  | .weekly => 52
  | .daily => 365

/-- Cost table shape, the COSTS object of the source (all amounts in
euros). -/
structure Costs where
  silentiaScreen : ℚ
  textileCurtain : ℚ
  disposableCurtain : ℚ
  textileCleaning : ℚ
  disposableCleaning : ℚ
  disposableReplacement : ℚ
  silentiaCleaning : ℚ
deriving DecidableEq, Repr

/-- COSTS constant from src/calculator.js lines 16-26. -/
def COSTS : Costs where
  silentiaScreen := 1310
  textileCurtain := 800
  disposableCurtain := 700
  textileCleaning := 48
  disposableCleaning := 0
  disposableReplacement := 700
  silentiaCleaning := 5

/-- SILENTIA_LIFESPAN_YEARS from src/calculator.js line 13. -/
def SILENTIA_LIFESPAN_YEARS : ℚ := 10

/-- Result object of calculateROI.  The two early returns of the source
produce objects without the savings / initialDiff fields; those appear
here as none. -/
structure ROIResult where
  years : ℚ
  valid : Bool
  savings : Option ℚ := none
  initialDiff : Option ℚ := none
deriving DecidableEq, Repr

/-- silentiaInitial local of calculateROI (line 110):
qty * COSTS.silentiaScreen. -/
def silentiaInitial (costs : Costs) (qty : ℤ) : ℚ :=
  (qty : ℚ) * costs.silentiaScreen

/-- curtainInitial local of calculateROI (lines 111-112):
qty * (textile ? COSTS.textileCurtain : COSTS.disposableCurtain). -/
def curtainInitial (costs : Costs) (qty : ℤ) (curtainType : CurtainType) : ℚ :=
  (qty : ℚ) * (if curtainType = CurtainType.textile then
    costs.textileCurtain else costs.disposableCurtain)

/-- silentiaAnnual local of calculateROI (line 115):
qty * COSTS.silentiaCleaning * cleaningsPerYear. -/
def silentiaAnnual (costs : Costs) (qty : ℤ) (cleaningFrequency : Frequency) : ℚ :=
  (qty : ℚ) * costs.silentiaCleaning * FREQUENCY_MULTIPLIER cleaningFrequency

/-- curtainAnnual local of calculateROI (lines 116-123): textile is
cleaned, disposable is replaced each cleaning. -/
def curtainAnnual (costs : Costs) (qty : ℤ) (curtainType : CurtainType)
    (cleaningFrequency : Frequency) : ℚ :=
  if curtainType = CurtainType.textile then
    (qty : ℚ) * costs.textileCleaning * FREQUENCY_MULTIPLIER cleaningFrequency
  else
    (qty : ℚ) * costs.disposableReplacement * FREQUENCY_MULTIPLIER cleaningFrequency

/-- initialDifference local of calculateROI (line 131). -/
def initialDifference (costs : Costs) (qty : ℤ) (curtainType : CurtainType) : ℚ :=
  silentiaInitial costs qty - curtainInitial costs qty curtainType

/-- annualSavings local of calculateROI (line 132). -/
def annualSavings (costs : Costs) (qty : ℤ) (curtainType : CurtainType)
    (cleaningFrequency : Frequency) : ℚ :=
  curtainAnnual costs qty curtainType cleaningFrequency -
    silentiaAnnual costs qty cleaningFrequency

/-- calculateROI from src/calculator.js lines 101-147.  The state
snapshot (quantity, curtainType, cleaningFrequency) and the global COSTS
table are passed as arguments. -/
def calculateROI (costs : Costs) (quantity : ℤ) (curtainType : CurtainType)
    (cleaningFrequency : Frequency) : ROIResult :=
  if quantity ≤ 0 then
    { years := 0, valid := false }
  else if annualSavings costs quantity curtainType cleaningFrequency ≤ 0 then
    -- Silentia is more expensive to operate, no break-even
    { years := 999, valid := false }
  else
    { years := max 0 (initialDifference costs quantity curtainType /
        annualSavings costs quantity curtainType cleaningFrequency),
      valid := true,
      savings := some (annualSavings costs quantity curtainType cleaningFrequency),
      initialDiff := some (initialDifference costs quantity curtainType) }

/-- The break-even years of the shipped table are quantity-independent;
this is their value at quantity 1 (used to state that fact). -/
def baselineYears (curtainType : CurtainType) (cleaningFrequency : Frequency) : ℚ :=
  initialDifference COSTS 1 curtainType /
    annualSavings COSTS 1 curtainType cleaningFrequency

/-- Shared reduction: on the shipped COSTS table, for any positive
quantity, calculateROI takes the valid branch, its clamp is a no-op, and
the break-even years are the quantity-independent baseline. -/
theorem calculateROI_pos (qty : ℤ) (t : CurtainType) (f : Frequency)
    (h : 0 < qty) :
    calculateROI COSTS qty t f =
      { years := baselineYears t f,
        valid := true,
        savings := some (annualSavings COSTS qty t f),
        initialDiff := some (initialDifference COSTS qty t) } := by
  have hq : ¬ (qty ≤ 0) := not_le.mpr h
  have hq0 : (qty : ℚ) ≠ 0 := Int.cast_ne_zero.mpr (by omega)
  have hqpos : (0 : ℚ) < (qty : ℚ) := by exact_mod_cast h
  cases t <;> cases f <;>
    · simp only [calculateROI, annualSavings, curtainAnnual, silentiaAnnual,
        silentiaInitial, curtainInitial, initialDifference, baselineYears,
        COSTS, FREQUENCY_MULTIPLIER, hq, if_false, if_true, reduceIte,
        reduceCtorEq, Int.cast_one]
      rw [if_neg (not_le.mpr (by nlinarith))]
      congr 1
      rw [max_eq_right (le_of_lt (div_pos (by nlinarith) (by nlinarith)))]
      rw [div_eq_div_iff (ne_of_gt (by nlinarith)) (by norm_num)]
      ring

/-- ENVIRONMENTAL constants from src/calculator.js lines 29-46,
flattened (object.path becomes an underscore-joined field name).  The
wipe mass 0.015 kg per screen per cleaning is the value of
src/calculator.js; the unnamed near-duplicate source file carries 1 in
that slot instead, a configuration difference only. -/
structure Environmental where
  textile_kWhPerCleaning : ℚ
  textile_waterPerCleaning : ℚ
  disposable_plasticPerUnit : ℚ
  silentia_kWhPerCleaning : ℚ
  silentia_waterPerCleaning : ℚ
  silentia_disinfectantPerCleaning : ℚ
  silentia_wipesPerCleaning : ℚ
deriving DecidableEq, Repr

/-- ENVIRONMENTAL constant of src/calculator.js. -/
def ENVIRONMENTAL : Environmental where
  textile_kWhPerCleaning := 30
  textile_waterPerCleaning := 108
  disposable_plasticPerUnit := 2
  silentia_kWhPerCleaning := 0
  silentia_waterPerCleaning := 0
  silentia_disinfectantPerCleaning := 1/50
  silentia_wipesPerCleaning := 3/200

/-- Numeric value of x.toFixed(0): round to the nearest integer, ties
upward (JS Math-style rounding on exact decimal inputs). -/
def toFixed0 (x : ℚ) : ℤ := round x

/-- Numeric value of parseFloat(x.toFixed(2)): round to the nearest
two-decimal value. -/
def toFixed2 (x : ℚ) : ℚ := (round (x * 100) : ℚ) / 100

/-- Result object of calculateResources: a tagged union over the
type field of the returned object.  Fields produced through
toFixed(0) (whole-unit strings in the source) are integers; the two
consumable fields go through parseFloat(toFixed(2)) and stay rational. -/
inductive ResourceResult where
  | textile (curtainKWh curtainWater silentiaKWh silentiaWater : ℤ)
      (silentiaDisinfectant silentiaWipes : ℚ) (savedKWh savedWater : ℤ)
  | disposable (plasticWaste : ℤ) (silentiaDisinfectant silentiaWipes : ℚ)
      (savedPlastic : ℤ)
deriving DecidableEq, Repr

/-- calculateResources from src/calculator.js lines 153-196. -/
def calculateResources (quantity : ℤ) (curtainType : CurtainType)
    (cleaningFrequency : Frequency) : Option ResourceResult :=
  if quantity ≤ 0 then
    none
  else
    let cleaningsPerYear := FREQUENCY_MULTIPLIER cleaningFrequency
    if curtainType = CurtainType.textile then
      let curtainKWh : ℚ :=
        (quantity : ℚ) * ENVIRONMENTAL.textile_kWhPerCleaning * cleaningsPerYear
      let curtainWater : ℚ :=
        (quantity : ℚ) * ENVIRONMENTAL.textile_waterPerCleaning * cleaningsPerYear
      let silentiaKWh : ℚ :=
        (quantity : ℚ) * ENVIRONMENTAL.silentia_kWhPerCleaning * cleaningsPerYear
      let silentiaWater : ℚ :=
        (quantity : ℚ) * ENVIRONMENTAL.silentia_waterPerCleaning * cleaningsPerYear
      let silentiaDisinfectant : ℚ :=
        (quantity : ℚ) * ENVIRONMENTAL.silentia_disinfectantPerCleaning * cleaningsPerYear
      let silentiaWipes : ℚ :=
        (quantity : ℚ) * ENVIRONMENTAL.silentia_wipesPerCleaning * cleaningsPerYear
      some (ResourceResult.textile
        (toFixed0 curtainKWh) (toFixed0 curtainWater)
        (toFixed0 silentiaKWh) (toFixed0 silentiaWater)
        (toFixed2 silentiaDisinfectant) (toFixed2 silentiaWipes)
        (toFixed0 (curtainKWh - silentiaKWh))
        (toFixed0 (curtainWater - silentiaWater)))
    else
      let plasticWaste : ℚ :=
        (quantity : ℚ) * ENVIRONMENTAL.disposable_plasticPerUnit * cleaningsPerYear
      let silentiaDisinfectant : ℚ :=
        (quantity : ℚ) * ENVIRONMENTAL.silentia_disinfectantPerCleaning * cleaningsPerYear
      let silentiaWipes : ℚ :=
        (quantity : ℚ) * ENVIRONMENTAL.silentia_wipesPerCleaning * cleaningsPerYear
      -- savedPlastic: Silentia produces no plastic waste
      some (ResourceResult.disposable
        (toFixed0 plasticWaste)
        (toFixed2 silentiaDisinfectant) (toFixed2 silentiaWipes)
        (toFixed0 plasticWaste))

/-- One (magnitude text, unit label) pair as written into the roi-years
element and its label by displayResults. -/
structure Display where
  text : String
  label : String
deriving DecidableEq, Repr

/-- The break-even duration formatter of displayResults, src/calculator.js
lines 295-343: the cascading bucket selection applied to a valid,
non-sentinel years value. -/
def formatDuration (years : ℚ) : Display :=
  if years > SILENTIA_LIFESPAN_YEARS then
    { text := "10+", label := "YEARS" }
  else if years < 1/52 then
    -- Convert to days when less than 1 week
    let days := round (years * 365)
    { text := toString (max 1 days), label := if days = 1 then "DAY" else "DAYS" }
  else if years < 1/12 then
    -- Convert to weeks when less than 1 month
    let weeks := round (years * 52)
    -- If 4 or more weeks, show as months instead
    if weeks ≥ 4 then
      let months := round (years * 12)
      { text := toString months, label := if months = 1 then "MONTH" else "MONTHS" }
    else if weeks < 1 then
      let days := round (years * 365)
      { text := toString (max 1 days), label := if days = 1 then "DAY" else "DAYS" }
    else
      { text := toString weeks, label := if weeks = 1 then "WEEK" else "WEEKS" }
  else if years < 1 then
    -- Convert to months when less than 1 year
    let months := round (years * 12)
    -- If it rounds to 12 months, show as 1 year instead
    if months ≥ 12 then
      { text := "1", label := "YEAR" }
    else
      { text := toString months, label := if months = 1 then "MONTH" else "MONTHS" }
  else
    -- Display years - remove decimal if whole number
    let tenths := round (years * 10)
    let roundedYears : ℚ := (tenths : ℚ) / 10
    if |roundedYears - (round roundedYears : ℚ)| < 1/100 then
      { text := toString (round roundedYears),
        label := if roundedYears > 1 then "YEARS" else "YEAR" }
    else
      { text := toString (tenths / 10) ++ "." ++ toString (tenths % 10),
        label := if roundedYears > 1 then "YEARS" else "YEAR" }

/-- The two bar widths of createBarRow, src/calculator.js lines 234-237:
each value's share of the larger of the two, or 0 when both are 0. -/
def createBarRowWidths (silentiaValue curtainValue : ℚ) : ℚ × ℚ :=
  let maxValue := max silentiaValue curtainValue
  (if maxValue > 0 then silentiaValue / maxValue * 100 else 0,
   if maxValue > 0 then curtainValue / maxValue * 100 else 0)

/-- One segment percentage of the stacked resource bars, displayResults
lines 365-377 and 411-420: the value's share of the local total, or 0
when the total is 0. -/
def segmentPct (value total : ℚ) : ℚ :=
  if total > 0 then value / total * 100 else 0

/-- The two curtain constructors are distinct (used to discharge the
material-selection conditionals). -/
theorem disposable_ne_textile :
    (CurtainType.disposable = CurtainType.textile) = False := by decide

/-- Value of the quantity-independent break-even years for textile, as a
function of the frequency multiplier. -/
theorem baselineYears_textile (f : Frequency) :
    baselineYears CurtainType.textile f = 510 / (43 * FREQUENCY_MULTIPLIER f) := by
  cases f <;>
    norm_num [baselineYears, initialDifference, silentiaInitial, curtainInitial,
      annualSavings, curtainAnnual, silentiaAnnual, COSTS, FREQUENCY_MULTIPLIER]

/-- Value of the quantity-independent break-even years for disposable, as
a function of the frequency multiplier. -/
theorem baselineYears_disposable (f : Frequency) :
    baselineYears CurtainType.disposable f = 610 / (695 * FREQUENCY_MULTIPLIER f) := by
  cases f <;>
    norm_num [baselineYears, initialDifference, silentiaInitial, curtainInitial,
      annualSavings, curtainAnnual, silentiaAnnual, COSTS, FREQUENCY_MULTIPLIER,
      disposable_ne_textile]

/-- The baseline break-even equals the quantity-scaled cost ratio for any
positive quantity. -/
theorem baselineYears_eq_ratio (qty : ℤ) (t : CurtainType) (f : Frequency)
    (h : 0 < qty) :
    baselineYears t f =
      initialDifference COSTS qty t / annualSavings COSTS qty t f := by
  have hqpos : (0 : ℚ) < (qty : ℚ) := by exact_mod_cast h
  cases t <;> cases f <;>
    · simp only [baselineYears_textile, baselineYears_disposable,
        initialDifference, silentiaInitial, curtainInitial, annualSavings,
        curtainAnnual, silentiaAnnual, COSTS, FREQUENCY_MULTIPLIER,
        disposable_ne_textile, reduceIte, if_true, if_false]
      rw [div_eq_div_iff (by norm_num) (ne_of_gt (by nlinarith))]
      ring

/-- On the shipped table the annual savings are strictly positive for any
positive quantity. -/
theorem annualSavings_COSTS_pos (qty : ℤ) (t : CurtainType) (f : Frequency)
    (h : 0 < qty) : 0 < annualSavings COSTS qty t f := by
  have hqpos : (0 : ℚ) < (qty : ℚ) := by exact_mod_cast h
  cases t <;> cases f <;>
    · simp only [annualSavings, curtainAnnual, silentiaAnnual, COSTS,
        FREQUENCY_MULTIPLIER, disposable_ne_textile, reduceIte, if_true, if_false]
      nlinarith

/-- On the shipped table the initial cost difference is strictly positive
for any positive quantity. -/
theorem initialDifference_COSTS_pos (qty : ℤ) (t : CurtainType) (h : 0 < qty) :
    0 < initialDifference COSTS qty t := by
  have hqpos : (0 : ℚ) < (qty : ℚ) := by exact_mod_cast h
  cases t <;>
    · simp only [initialDifference, silentiaInitial, curtainInitial, COSTS,
        disposable_ne_textile, reduceIte, if_true, if_false]
      nlinarith

/-- The baseline break-even is strictly positive and is never the 999
sentinel value. -/
theorem baselineYears_pos_ne (t : CurtainType) (f : Frequency) :
    0 < baselineYears t f ∧ baselineYears t f ≠ 999 := by
  cases t <;> cases f <;>
    constructor <;>
      norm_num [baselineYears_textile, baselineYears_disposable,
        FREQUENCY_MULTIPLIER]

/-- C1: for every positive quantity, material and recognized frequency,
calculateROI returns breakEvenYears equal to
(qty*1310 - qty*unitCost) / (qty*operatingCost*f - qty*5*f), with unit
cost 800 (textile) / 700 (disposable) and operating cost 48 (textile
cleaning) / 700 (disposable replacement); in particular at quantity 100,
textile, quarterly the result is 51000/17200. -/
theorem C1_breakEven_formula (qty : ℤ) (t : CurtainType) (f : Frequency)
    (h : 0 < qty) :
    (calculateROI COSTS qty t f).years =
      ((qty : ℚ) * 1310 -
          (qty : ℚ) * (if t = CurtainType.textile then 800 else 700)) /
        ((qty : ℚ) * (if t = CurtainType.textile then 48 else 700) *
            FREQUENCY_MULTIPLIER f -
          (qty : ℚ) * 5 * FREQUENCY_MULTIPLIER f) ∧
    (calculateROI COSTS 100 CurtainType.textile Frequency.quarterly).years =
      51000 / 17200 := by
  have hqpos : (0 : ℚ) < (qty : ℚ) := by exact_mod_cast h
  constructor
  · rw [calculateROI_pos qty t f h]
    show baselineYears t f = _
    cases t <;> cases f <;>
      · simp only [baselineYears_textile, baselineYears_disposable,
          FREQUENCY_MULTIPLIER, disposable_ne_textile, reduceIte, if_true, if_false]
        rw [div_eq_div_iff (by norm_num) (ne_of_gt (by nlinarith))]
        ring
  · rw [calculateROI_pos 100 CurtainType.textile Frequency.quarterly (by norm_num)]
    show baselineYears _ _ = _
    norm_num [baselineYears_textile, FREQUENCY_MULTIPLIER]

/-- Witness for C1 at quantity 100, textile, quarterly. -/
theorem C1_breakEven_formula_witness :
    (calculateROI COSTS 100 CurtainType.textile Frequency.quarterly).years =
      ((100 : ℚ) * 1310 -
          (100 : ℚ) * (if CurtainType.textile = CurtainType.textile then 800 else 700)) /
        ((100 : ℚ) * (if CurtainType.textile = CurtainType.textile then 48 else 700) *
            FREQUENCY_MULTIPLIER Frequency.quarterly -
          (100 : ℚ) * 5 * FREQUENCY_MULTIPLIER Frequency.quarterly) :=
  (C1_breakEven_formula 100 CurtainType.textile Frequency.quarterly
    (by norm_num)).1

/-- C2: for every non-positive quantity, calculateROI returns the
distinguished invalid state (years 0, valid false) and calculateResources
returns the no-data state none, which differs from every concrete
all-zero consumption result. -/
theorem C2_nonpositive_quantity (qty : ℤ) (t : CurtainType) (f : Frequency)
    (h : qty ≤ 0) :
    calculateROI COSTS qty t f =
      { years := 0, valid := false, savings := none, initialDiff := none } ∧
    calculateResources qty t f = none ∧
    calculateResources qty t f ≠
      some (ResourceResult.textile 0 0 0 0 0 0 0 0) := by
  refine ⟨?_, ?_, ?_⟩ <;> simp [calculateROI, calculateResources, h]

/-- Witness for C2 at quantity 0. -/
theorem C2_nonpositive_quantity_witness :
    calculateROI COSTS 0 CurtainType.textile Frequency.quarterly =
      { years := 0, valid := false, savings := none, initialDiff := none } ∧
    calculateResources 0 CurtainType.textile Frequency.quarterly = none ∧
    calculateResources 0 CurtainType.textile Frequency.quarterly ≠
      some (ResourceResult.textile 0 0 0 0 0 0 0 0) :=
  C2_nonpositive_quantity 0 CurtainType.textile Frequency.quarterly
    (by norm_num)

/-- C3: for any cost table and positive quantity, a non-positive annual
savings denominator yields the unreachable sentinel (years 999, valid
false); with positive savings a negative computed break-even is clamped
to 0; and every input maps to one of the three defined result states, so
no case is left undefined. -/
theorem C3_degenerate_cases (costs : Costs) (qty : ℤ) (t : CurtainType)
    (f : Frequency) :
    (0 < qty → annualSavings costs qty t f ≤ 0 →
      calculateROI costs qty t f =
        { years := 999, valid := false, savings := none, initialDiff := none }) ∧
    (0 < qty → 0 < annualSavings costs qty t f →
      initialDifference costs qty t / annualSavings costs qty t f < 0 →
      (calculateROI costs qty t f).years = 0) ∧
    (calculateROI costs qty t f =
        { years := 0, valid := false, savings := none, initialDiff := none } ∨
      calculateROI costs qty t f =
        { years := 999, valid := false, savings := none, initialDiff := none } ∨
      ((calculateROI costs qty t f).valid = true ∧
        0 ≤ (calculateROI costs qty t f).years)) := by
  refine ⟨?_, ?_, ?_⟩
  · intro h hs
    simp [calculateROI, not_le.mpr h, hs]
  · intro h hs hneg
    simp [calculateROI, not_le.mpr h, not_le.mpr hs,
      max_eq_left (le_of_lt hneg)]
  · rcases le_or_lt qty 0 with hq | hq
    · left
      simp [calculateROI, hq]
    · rcases le_or_lt (annualSavings costs qty t f) 0 with hs | hs
      · right; left
        simp [calculateROI, not_le.mpr hq, hs]
      · right; right
        constructor
        · simp [calculateROI, not_le.mpr hq, not_le.mpr hs]
        · simp only [calculateROI, not_le.mpr hq, not_le.mpr hs, if_false,
            reduceIte]
          exact le_max_left 0 _

/-- Witness for C3: a table whose screen cleaning is dearer than textile
cleaning hits the sentinel, and a table with a cheap screen and positive
savings hits the clamp. -/
theorem C3_degenerate_cases_witness :
    calculateROI
        { silentiaScreen := 1310, textileCurtain := 800, disposableCurtain := 700,
          textileCleaning := 48, disposableCleaning := 0,
          disposableReplacement := 700, silentiaCleaning := 100 }
        1 CurtainType.textile Frequency.yearly =
      { years := 999, valid := false, savings := none, initialDiff := none } ∧
    (calculateROI
        { silentiaScreen := 100, textileCurtain := 800, disposableCurtain := 700,
          textileCleaning := 48, disposableCleaning := 0,
          disposableReplacement := 700, silentiaCleaning := 5 }
        1 CurtainType.textile Frequency.yearly).years = 0 :=
  ⟨(C3_degenerate_cases _ 1 CurtainType.textile Frequency.yearly).1
      (by norm_num)
      (by norm_num [annualSavings, curtainAnnual, silentiaAnnual,
        FREQUENCY_MULTIPLIER]),
    (C3_degenerate_cases _ 1 CurtainType.textile Frequency.yearly).2.1
      (by norm_num)
      (by norm_num [annualSavings, curtainAnnual, silentiaAnnual,
        FREQUENCY_MULTIPLIER])
      (by norm_num [annualSavings, curtainAnnual, silentiaAnnual,
        initialDifference, silentiaInitial, curtainInitial,
        FREQUENCY_MULTIPLIER])⟩

/-- C4: for fixed material and frequency the break-even years returned by
calculateROI are identical across all positive quantities. -/
theorem C4_quantity_independent (q1 q2 : ℤ) (t : CurtainType) (f : Frequency)
    (h1 : 0 < q1) (h2 : 0 < q2) :
    (calculateROI COSTS q1 t f).years = (calculateROI COSTS q2 t f).years := by
  rw [calculateROI_pos q1 t f h1, calculateROI_pos q2 t f h2]

/-- Witness for C4 at quantities 100 and 7. -/
theorem C4_quantity_independent_witness :
    (calculateROI COSTS 100 CurtainType.textile Frequency.quarterly).years =
      (calculateROI COSTS 7 CurtainType.textile Frequency.quarterly).years :=
  C4_quantity_independent 100 7 CurtainType.textile Frequency.quarterly
    (by norm_num) (by norm_num)

/-- C10: with the baked-in cost table, for every positive quantity,
material and recognized frequency the annual savings and initial cost
difference are strictly positive, the result is valid (the 999 sentinel
branch is not taken), the clamp is a no-op (years equal the unclamped
ratio) and the break-even years are strictly positive. -/
theorem C10_sentinel_unreachable (qty : ℤ) (t : CurtainType) (f : Frequency)
    (h : 0 < qty) :
    0 < annualSavings COSTS qty t f ∧
    0 < initialDifference COSTS qty t ∧
    (calculateROI COSTS qty t f).valid = true ∧
    (calculateROI COSTS qty t f).years =
      initialDifference COSTS qty t / annualSavings COSTS qty t f ∧
    0 < (calculateROI COSTS qty t f).years ∧
    (calculateROI COSTS qty t f).years ≠ 999 := by
  have hs := annualSavings_COSTS_pos qty t f h
  have hd := initialDifference_COSTS_pos qty t h
  have hy := baselineYears_pos_ne t f
  rw [calculateROI_pos qty t f h]
  exact ⟨hs, hd, rfl, baselineYears_eq_ratio qty t f h, hy.1, hy.2⟩

/-- Witness for C10 at quantity 25, disposable, monthly. -/
theorem C10_sentinel_unreachable_witness :
    0 < annualSavings COSTS 25 CurtainType.disposable Frequency.monthly ∧
    0 < initialDifference COSTS 25 CurtainType.disposable ∧
    (calculateROI COSTS 25 CurtainType.disposable Frequency.monthly).valid = true ∧
    (calculateROI COSTS 25 CurtainType.disposable Frequency.monthly).years =
      initialDifference COSTS 25 CurtainType.disposable /
        annualSavings COSTS 25 CurtainType.disposable Frequency.monthly ∧
    0 < (calculateROI COSTS 25 CurtainType.disposable Frequency.monthly).years ∧
    (calculateROI COSTS 25 CurtainType.disposable Frequency.monthly).years ≠ 999 :=
  C10_sentinel_unreachable 25 CurtainType.disposable Frequency.monthly
    (by norm_num)

/-- Concrete evaluation: the disposable/weekly baseline break-even
(61/3614 years, about 6.2 days) formats as 6 DAYS. -/
theorem formatDuration_disposable_weekly :
    formatDuration ((61 : ℚ)/3614) = { text := "6", label := "DAYS" } := by
  have hr : round ((61 : ℚ)/3614 * 365) = 6 := by
    rw [round_eq]
    norm_num [Int.floor_eq_iff]
  simp only [formatDuration, SILENTIA_LIFESPAN_YEARS]
  rw [if_neg (by norm_num), if_pos (by norm_num), hr]
  rfl

/-- Concrete evaluation: the disposable/daily baseline break-even
(122/50735 years, about 0.88 days) formats as 1 DAY. -/
theorem formatDuration_disposable_daily :
    formatDuration ((122 : ℚ)/50735) = { text := "1", label := "DAY" } := by
  have hr : round ((122 : ℚ)/50735 * 365) = 1 := by
    rw [round_eq]
    norm_num [Int.floor_eq_iff]
  simp only [formatDuration, SILENTIA_LIFESPAN_YEARS]
  rw [if_neg (by norm_num), if_pos (by norm_num), hr]
  rfl

/-- Normalised value of the disposable/weekly baseline. -/
theorem baselineYears_disposable_weekly_val :
    baselineYears CurtainType.disposable Frequency.weekly = 61/3614 := by
  rw [baselineYears_disposable]
  norm_num [FREQUENCY_MULTIPLIER]

/-- Normalised value of the disposable/daily baseline. -/
theorem baselineYears_disposable_daily_val :
    baselineYears CurtainType.disposable Frequency.daily = 122/50735 := by
  rw [baselineYears_disposable]
  norm_num [FREQUENCY_MULTIPLIER]

/-- C5: every valid break-even result that falls below one week
(years < 1/52) is formatted as round(years*365) days, floored at 1, the
unit being DAY exactly when the displayed magnitude is 1; in particular
quantity 50, disposable, weekly formats as 6 DAYS. -/
theorem C5_day_bucket (qty : ℤ) (t : CurtainType) (f : Frequency)
    (h : 0 < qty) :
    (0 < (calculateROI COSTS qty t f).years →
      (calculateROI COSTS qty t f).years < 1/52 →
      1 ≤ round ((calculateROI COSTS qty t f).years * 365) ∧
      formatDuration (calculateROI COSTS qty t f).years =
        { text := toString (max 1 (round ((calculateROI COSTS qty t f).years * 365))),
          label := if max 1 (round ((calculateROI COSTS qty t f).years * 365)) = 1
            then "DAY" else "DAYS" }) ∧
    ((calculateROI COSTS 50 CurtainType.disposable Frequency.weekly).years < 1/52 ∧
      formatDuration (calculateROI COSTS 50 CurtainType.disposable Frequency.weekly).years =
        { text := "6", label := "DAYS" }) := by
  have hr_w : round ((61 : ℚ)/3614 * 365) = 6 := by
    rw [round_eq]
    norm_num [Int.floor_eq_iff]
  have hr_d : round ((122 : ℚ)/50735 * 365) = 1 := by
    rw [round_eq]
    norm_num [Int.floor_eq_iff]
  constructor
  · simp only [calculateROI_pos qty t f h]
    cases t <;> cases f
    · intro _ hlt
      rw [baselineYears_textile] at hlt
      norm_num [FREQUENCY_MULTIPLIER] at hlt
    · intro _ hlt
      rw [baselineYears_textile] at hlt
      norm_num [FREQUENCY_MULTIPLIER] at hlt
    · intro _ hlt
      rw [baselineYears_textile] at hlt
      norm_num [FREQUENCY_MULTIPLIER] at hlt
    · intro _ hlt
      rw [baselineYears_textile] at hlt
      norm_num [FREQUENCY_MULTIPLIER] at hlt
    · intro _ hlt
      rw [baselineYears_textile] at hlt
      norm_num [FREQUENCY_MULTIPLIER] at hlt
    · intro _ hlt
      rw [baselineYears_disposable] at hlt
      norm_num [FREQUENCY_MULTIPLIER] at hlt
    · intro _ hlt
      rw [baselineYears_disposable] at hlt
      norm_num [FREQUENCY_MULTIPLIER] at hlt
    · intro _ hlt
      rw [baselineYears_disposable] at hlt
      norm_num [FREQUENCY_MULTIPLIER] at hlt
    · intro _ _
      rw [baselineYears_disposable_weekly_val, hr_w,
        formatDuration_disposable_weekly]
      exact ⟨by norm_num, by decide⟩
    · intro _ _
      rw [baselineYears_disposable_daily_val, hr_d,
        formatDuration_disposable_daily]
      exact ⟨by norm_num, by decide⟩
  · simp only [calculateROI_pos 50 CurtainType.disposable Frequency.weekly
      (by norm_num)]
    rw [baselineYears_disposable_weekly_val]
    exact ⟨by norm_num, formatDuration_disposable_weekly⟩

/-- Witness for C5 at quantity 50, disposable, weekly. -/
theorem C5_day_bucket_witness :
    (calculateROI COSTS 50 CurtainType.disposable Frequency.weekly).years < 1/52 ∧
    formatDuration (calculateROI COSTS 50 CurtainType.disposable Frequency.weekly).years =
      { text := "6", label := "DAYS" } :=
  (C5_day_bucket 50 CurtainType.disposable Frequency.weekly (by norm_num)).2

/-- C6: the formatter re-buckets at bucket boundaries: in the week bucket
(years below 1/12), 4 or more rounded weeks are emitted as
round(years*12) months; fewer than one rounded week re-buckets as days;
and in the month bucket (years below 1), 12 or more rounded months are
emitted as 1 YEAR. -/
theorem C6_rebucketing (y : ℚ) :
    (1/52 ≤ y → y < 1/12 → 4 ≤ round (y * 52) →
      formatDuration y =
        { text := toString (round (y * 12)),
          label := if round (y * 12) = 1 then "MONTH" else "MONTHS" }) ∧
    (1/52 ≤ y → y < 1/12 → round (y * 52) < 1 →
      formatDuration y =
        { text := toString (max 1 (round (y * 365))),
          label := if round (y * 365) = 1 then "DAY" else "DAYS" }) ∧
    (1/12 ≤ y → y < 1 → 12 ≤ round (y * 12) →
      formatDuration y = { text := "1", label := "YEAR" }) := by
  refine ⟨?_, ?_, ?_⟩
  · intro h1 h2 h4
    simp only [formatDuration, SILENTIA_LIFESPAN_YEARS]
    rw [if_neg (by linarith), if_neg (not_lt.mpr h1), if_pos h2, if_pos h4]
  · intro h1 _ hlt
    exfalso
    have hge : (1 : ℤ) ≤ round (y * 52) := by
      rw [round_eq, Int.le_floor]
      push_cast
      linarith
    omega
  · intro h1 h2 h12
    simp only [formatDuration, SILENTIA_LIFESPAN_YEARS]
    rw [if_neg (by linarith), if_neg (by push_neg; linarith),
      if_neg (not_lt.mpr h1), if_pos h2, if_pos h12]

/-- Witness for C6: the disposable/monthly baseline (about 3.8 weeks)
re-buckets to 1 MONTH, and the textile/monthly baseline (about 11.9
months) re-buckets to 1 YEAR. -/
theorem C6_rebucketing_witness :
    formatDuration ((61 : ℚ)/834) = { text := "1", label := "MONTH" } ∧
    formatDuration ((85 : ℚ)/86) = { text := "1", label := "YEAR" } := by
  constructor
  · have h := (C6_rebucketing (61/834)).1 (by norm_num) (by norm_num)
      (by rw [round_eq, Int.le_floor]; push_cast; norm_num)
    have hm : round ((61 : ℚ)/834 * 12) = 1 := by
      rw [round_eq]
      norm_num [Int.floor_eq_iff]
    rw [h, hm]
    rfl
  · exact (C6_rebucketing (85/86)).2.2 (by norm_num) (by norm_num)
      (by rw [round_eq, Int.le_floor]; push_cast; norm_num)

/-- Shared reduction: the textile branch of calculateResources for a
positive quantity, each slot the rounding of rate * quantity * cleanings
per year, the saved slots equal to the curtain slots (the screen rates
are 0). -/
theorem calculateResources_textile_eq (qty : ℤ) (f : Frequency) (h : 0 < qty) :
    calculateResources qty CurtainType.textile f =
      some (ResourceResult.textile
        (toFixed0 ((qty : ℚ) * 30 * FREQUENCY_MULTIPLIER f))
        (toFixed0 ((qty : ℚ) * 108 * FREQUENCY_MULTIPLIER f))
        (toFixed0 0) (toFixed0 0)
        (toFixed2 ((qty : ℚ) * (1/50) * FREQUENCY_MULTIPLIER f))
        (toFixed2 ((qty : ℚ) * (3/200) * FREQUENCY_MULTIPLIER f))
        (toFixed0 ((qty : ℚ) * 30 * FREQUENCY_MULTIPLIER f))
        (toFixed0 ((qty : ℚ) * 108 * FREQUENCY_MULTIPLIER f))) := by
  have hq : ¬ (qty ≤ 0) := not_le.mpr h
  simp only [calculateResources, ENVIRONMENTAL, hq, if_false, reduceIte,
    eq_self_iff_true, if_true, mul_zero, zero_mul, sub_zero]

/-- Shared reduction: the disposable branch of calculateResources for a
positive quantity, the saved plastic equal to the full annual replacement
waste. -/
theorem calculateResources_disposable_eq (qty : ℤ) (f : Frequency)
    (h : 0 < qty) :
    calculateResources qty CurtainType.disposable f =
      some (ResourceResult.disposable
        (toFixed0 ((qty : ℚ) * 2 * FREQUENCY_MULTIPLIER f))
        (toFixed2 ((qty : ℚ) * (1/50) * FREQUENCY_MULTIPLIER f))
        (toFixed2 ((qty : ℚ) * (3/200) * FREQUENCY_MULTIPLIER f))
        (toFixed0 ((qty : ℚ) * 2 * FREQUENCY_MULTIPLIER f))) := by
  have hq : ¬ (qty ≤ 0) := not_le.mpr h
  simp only [calculateResources, ENVIRONMENTAL, hq, if_false, reduceIte,
    disposable_ne_textile, mul_zero, zero_mul, sub_zero]

/-- C7: for every positive quantity and recognized frequency, each annual
amount of calculateResources is the rounding of rate * quantity *
cleanings-per-year; since the screen energy and water rates are 0, the
textile saved-energy and saved-water slots equal the curtain slots, and
the disposable saved-plastic slot equals the full annual replacement
waste. -/
theorem C7_resource_amounts (qty : ℤ) (f : Frequency) (h : 0 < qty) :
    calculateResources qty CurtainType.textile f =
      some (ResourceResult.textile
        (toFixed0 ((qty : ℚ) * 30 * FREQUENCY_MULTIPLIER f))
        (toFixed0 ((qty : ℚ) * 108 * FREQUENCY_MULTIPLIER f))
        (toFixed0 0) (toFixed0 0)
        (toFixed2 ((qty : ℚ) * (1/50) * FREQUENCY_MULTIPLIER f))
        (toFixed2 ((qty : ℚ) * (3/200) * FREQUENCY_MULTIPLIER f))
        (toFixed0 ((qty : ℚ) * 30 * FREQUENCY_MULTIPLIER f))
        (toFixed0 ((qty : ℚ) * 108 * FREQUENCY_MULTIPLIER f))) ∧
    calculateResources qty CurtainType.disposable f =
      some (ResourceResult.disposable
        (toFixed0 ((qty : ℚ) * 2 * FREQUENCY_MULTIPLIER f))
        (toFixed2 ((qty : ℚ) * (1/50) * FREQUENCY_MULTIPLIER f))
        (toFixed2 ((qty : ℚ) * (3/200) * FREQUENCY_MULTIPLIER f))
        (toFixed0 ((qty : ℚ) * 2 * FREQUENCY_MULTIPLIER f))) :=
  ⟨calculateResources_textile_eq qty f h,
   calculateResources_disposable_eq qty f h⟩

/-- Witness for C7 at quantity 1, yearly. -/
theorem C7_resource_amounts_witness :
    calculateResources 1 CurtainType.textile Frequency.yearly =
      some (ResourceResult.textile
        (toFixed0 (((1 : ℤ) : ℚ) * 30 * FREQUENCY_MULTIPLIER Frequency.yearly))
        (toFixed0 (((1 : ℤ) : ℚ) * 108 * FREQUENCY_MULTIPLIER Frequency.yearly))
        (toFixed0 0) (toFixed0 0)
        (toFixed2 (((1 : ℤ) : ℚ) * (1/50) * FREQUENCY_MULTIPLIER Frequency.yearly))
        (toFixed2 (((1 : ℤ) : ℚ) * (3/200) * FREQUENCY_MULTIPLIER Frequency.yearly))
        (toFixed0 (((1 : ℤ) : ℚ) * 30 * FREQUENCY_MULTIPLIER Frequency.yearly))
        (toFixed0 (((1 : ℤ) : ℚ) * 108 * FREQUENCY_MULTIPLIER Frequency.yearly))) ∧
    calculateResources 1 CurtainType.disposable Frequency.yearly =
      some (ResourceResult.disposable
        (toFixed0 (((1 : ℤ) : ℚ) * 2 * FREQUENCY_MULTIPLIER Frequency.yearly))
        (toFixed2 (((1 : ℤ) : ℚ) * (1/50) * FREQUENCY_MULTIPLIER Frequency.yearly))
        (toFixed2 (((1 : ℤ) : ℚ) * (3/200) * FREQUENCY_MULTIPLIER Frequency.yearly))
        (toFixed0 (((1 : ℤ) : ℚ) * 2 * FREQUENCY_MULTIPLIER Frequency.yearly))) :=
  C7_resource_amounts 1 Frequency.yearly (by norm_num)

/-- A toFixed(0) slot is within half a unit of the exact amount. -/
theorem toFixed0_close (x : ℚ) : |(toFixed0 x : ℚ) - x| ≤ 1/2 := by
  rw [toFixed0, abs_sub_comm]
  exact abs_sub_round x

/-- A toFixed(2) slot is an integer number of hundredths. -/
theorem toFixed2_hundredths (x : ℚ) : ∃ n : ℤ, toFixed2 x = (n : ℚ)/100 :=
  ⟨round (x * 100), rfl⟩

/-- A toFixed(2) slot is within half a hundredth of the exact amount. -/
theorem toFixed2_close (x : ℚ) : |toFixed2 x - x| ≤ 1/200 := by
  rw [toFixed2]
  have hsplit : ((round (x * 100) : ℚ))/100 - x =
      ((round (x * 100) : ℚ) - x * 100)/100 := by ring
  rw [hsplit, abs_div, abs_of_pos (show (0:ℚ) < 100 by norm_num)]
  have hr := abs_sub_round (x * 100)
  rw [abs_sub_comm] at hr
  linarith

/-- C8: for every positive quantity and recognized frequency, the energy,
water and bulk-plastic slots of calculateResources are whole units (they
are integers within half a unit of the exact amount) and the disinfectant
and wipe slots are two-decimal values within half a hundredth of the
exact amount. -/
theorem C8_rounding_contract (qty : ℤ) (f : Frequency)
    (cK cW sK sW : ℤ) (sD sWp : ℚ) (svK svW : ℤ)
    (pW : ℤ) (dD dWp : ℚ) (svP : ℤ)
    (h : 0 < qty)
    (ht : calculateResources qty CurtainType.textile f =
      some (ResourceResult.textile cK cW sK sW sD sWp svK svW))
    (hd : calculateResources qty CurtainType.disposable f =
      some (ResourceResult.disposable pW dD dWp svP)) :
    |(cK : ℚ) - (qty : ℚ) * 30 * FREQUENCY_MULTIPLIER f| ≤ 1/2 ∧
    |(cW : ℚ) - (qty : ℚ) * 108 * FREQUENCY_MULTIPLIER f| ≤ 1/2 ∧
    (∃ n : ℤ, sD = (n : ℚ)/100) ∧
    |sD - (qty : ℚ) * (1/50) * FREQUENCY_MULTIPLIER f| ≤ 1/200 ∧
    (∃ n : ℤ, sWp = (n : ℚ)/100) ∧
    |sWp - (qty : ℚ) * (3/200) * FREQUENCY_MULTIPLIER f| ≤ 1/200 ∧
    |(pW : ℚ) - (qty : ℚ) * 2 * FREQUENCY_MULTIPLIER f| ≤ 1/2 ∧
    (∃ n : ℤ, dD = (n : ℚ)/100) ∧
    |dD - (qty : ℚ) * (1/50) * FREQUENCY_MULTIPLIER f| ≤ 1/200 ∧
    (∃ n : ℤ, dWp = (n : ℚ)/100) ∧
    |dWp - (qty : ℚ) * (3/200) * FREQUENCY_MULTIPLIER f| ≤ 1/200 := by
  rw [calculateResources_textile_eq qty f h] at ht
  rw [calculateResources_disposable_eq qty f h] at hd
  simp only [Option.some.injEq, ResourceResult.textile.injEq,
    ResourceResult.disposable.injEq] at ht hd
  obtain ⟨e1, e2, _, _, e5, e6, _, _⟩ := ht
  obtain ⟨d1, d2, d3, _⟩ := hd
  subst e1 e2 e5 e6 d1 d2 d3
  exact ⟨toFixed0_close _, toFixed0_close _, toFixed2_hundredths _,
    toFixed2_close _, toFixed2_hundredths _, toFixed2_close _,
    toFixed0_close _, toFixed2_hundredths _, toFixed2_close _,
    toFixed2_hundredths _, toFixed2_close _⟩

/-- Witness for C8 at quantity 1, yearly. -/
theorem C8_rounding_contract_witness :
    |(toFixed0 (((1 : ℤ) : ℚ) * 30 * FREQUENCY_MULTIPLIER Frequency.yearly) : ℚ) -
        ((1 : ℤ) : ℚ) * 30 * FREQUENCY_MULTIPLIER Frequency.yearly| ≤ 1/2 ∧
    |(toFixed0 (((1 : ℤ) : ℚ) * 108 * FREQUENCY_MULTIPLIER Frequency.yearly) : ℚ) -
        ((1 : ℤ) : ℚ) * 108 * FREQUENCY_MULTIPLIER Frequency.yearly| ≤ 1/2 ∧
    (∃ n : ℤ, toFixed2 (((1 : ℤ) : ℚ) * (1/50) * FREQUENCY_MULTIPLIER Frequency.yearly) =
      (n : ℚ)/100) ∧
    |toFixed2 (((1 : ℤ) : ℚ) * (1/50) * FREQUENCY_MULTIPLIER Frequency.yearly) -
        ((1 : ℤ) : ℚ) * (1/50) * FREQUENCY_MULTIPLIER Frequency.yearly| ≤ 1/200 ∧
    (∃ n : ℤ, toFixed2 (((1 : ℤ) : ℚ) * (3/200) * FREQUENCY_MULTIPLIER Frequency.yearly) =
      (n : ℚ)/100) ∧
    |toFixed2 (((1 : ℤ) : ℚ) * (3/200) * FREQUENCY_MULTIPLIER Frequency.yearly) -
        ((1 : ℤ) : ℚ) * (3/200) * FREQUENCY_MULTIPLIER Frequency.yearly| ≤ 1/200 ∧
    |(toFixed0 (((1 : ℤ) : ℚ) * 2 * FREQUENCY_MULTIPLIER Frequency.yearly) : ℚ) -
        ((1 : ℤ) : ℚ) * 2 * FREQUENCY_MULTIPLIER Frequency.yearly| ≤ 1/2 ∧
    (∃ n : ℤ, toFixed2 (((1 : ℤ) : ℚ) * (1/50) * FREQUENCY_MULTIPLIER Frequency.yearly) =
      (n : ℚ)/100) ∧
    |toFixed2 (((1 : ℤ) : ℚ) * (1/50) * FREQUENCY_MULTIPLIER Frequency.yearly) -
        ((1 : ℤ) : ℚ) * (1/50) * FREQUENCY_MULTIPLIER Frequency.yearly| ≤ 1/200 ∧
    (∃ n : ℤ, toFixed2 (((1 : ℤ) : ℚ) * (3/200) * FREQUENCY_MULTIPLIER Frequency.yearly) =
      (n : ℚ)/100) ∧
    |toFixed2 (((1 : ℤ) : ℚ) * (3/200) * FREQUENCY_MULTIPLIER Frequency.yearly) -
        ((1 : ℤ) : ℚ) * (3/200) * FREQUENCY_MULTIPLIER Frequency.yearly| ≤ 1/200 :=
  C8_rounding_contract 1 Frequency.yearly _ _ _ _ _ _ _ _ _ _ _ _
    (by norm_num)
    (calculateResources_textile_eq 1 Frequency.yearly (by norm_num))
    (calculateResources_disposable_eq 1 Frequency.yearly (by norm_num))

/-- C9: for non-negative magnitudes, the bar-width and segment-share
calculations return 0 for every entry when the denominator (the maximum,
or the local sum) is 0, and the magnitude's share of the denominator
times 100 otherwise; every input yields a well-defined rational, so no
division by zero happens. -/
theorem C9_proportions (s c v1 v2 : ℚ) (hs : 0 ≤ s) (hc : 0 ≤ c)
    (h1 : 0 ≤ v1) (h2 : 0 ≤ v2) :
    (max s c = 0 → createBarRowWidths s c = (0, 0)) ∧
    (max s c ≠ 0 →
      createBarRowWidths s c = (s / max s c * 100, c / max s c * 100)) ∧
    (v1 + v2 = 0 → segmentPct v1 (v1 + v2) = 0 ∧ segmentPct v2 (v1 + v2) = 0) ∧
    (v1 + v2 ≠ 0 →
      segmentPct v1 (v1 + v2) = v1 / (v1 + v2) * 100 ∧
      segmentPct v2 (v1 + v2) = v2 / (v1 + v2) * 100) := by
  refine ⟨?_, ?_, ?_, ?_⟩
  · intro h0
    simp [createBarRowWidths, h0]
  · intro hne
    have hpos : 0 < max s c :=
      lt_of_le_of_ne (le_trans hs (le_max_left s c)) (Ne.symm hne)
    simp [createBarRowWidths, hpos]
  · intro h0
    constructor <;> simp [segmentPct, h0]
  · intro hne
    have hpos : 0 < v1 + v2 :=
      lt_of_le_of_ne (by linarith) (Ne.symm hne)
    constructor <;> simp [segmentPct, hpos]

/-- Witness for C9 at the pairs (3, 4) and (0, 0). -/
theorem C9_proportions_witness :
    createBarRowWidths 3 4 = (75, 100) ∧
    segmentPct 3 (3 + 4) = 300/7 ∧
    createBarRowWidths 0 0 = (0, 0) ∧
    segmentPct 0 (0 + 0) = 0 := by
  have h := C9_proportions 3 4 3 4 (by norm_num) (by norm_num) (by norm_num)
    (by norm_num)
  have h0 := C9_proportions 0 0 0 0 le_rfl le_rfl le_rfl le_rfl
  have hmax : max (3:ℚ) 4 = 4 := max_eq_right (by norm_num)
  refine ⟨?_, ?_, ?_, ?_⟩
  · rw [h.2.1 (by rw [hmax]; norm_num), hmax]
    norm_num [Prod.ext_iff]
  · rw [(h.2.2.2 (by norm_num)).1]
    norm_num
  · exact h0.1 (by simp)
  · exact (h0.2.2.1 (by norm_num)).1
